import Mathlib

/-!
Shallow embedding of the EduFlow RAG document-chatbot application
(src/rag-app.py) for specification checking.

Modelling conventions:
* The local ledger file `store_config.json` is a value of type `LedgerFile`:
  `none` when the file does not exist, `some c` when it holds the JSON
  object `c`, modelled as an association list from store id to file list
  (JSON (de)serialisation is assumed faithful).
* External calls (upload, import, operation polling, PDF probe, the four
  converters) are oracles packaged in a `Client` record: each field gives
  the outcome the external world would produce for the one file being
  ingested.  An `Except String` outcome models a Python call that either
  returns or raises, the error string being `str(e)`.
* The filesystem visible to the pipeline is the list of existing paths
  (`PipeState.files`); successful uploads are logged in
  `PipeState.uploads` as (path, mime type, display name).
* Wall-clock time in the polling loop advances by exactly the 3-second
  sleep per iteration; `opDone k` is the `done` flag the k-th fetch of the
  operation would report (k = 0 is the handle passed in).
-/

/-! ## Local file-list ledger (load_config / save_file_list / get_file_list / delete_file_list) -/

/-- A JSON object mapping store ids to lists of display names, as an
association list.  States reachable from the code always have distinct
keys, as Python dicts do. -/
abbrev Ledger := List (String × List String)

/-- The ledger file on disk: `none` when `store_config.json` does not exist. -/
abbrev LedgerFile := Option Ledger

/-- Python dict assignment `config[k] = v`: replace the entry if the key is
present, otherwise append a new entry at the end. -/
def dict_set : Ledger → String → List String → Ledger
  | [], k, v => [(k, v)]
  | p :: ps, k, v => if p.1 = k then (k, v) :: ps else p :: dict_set ps k v

/-- Python dict lookup `config.get(k, default)` (the `Option` part): first
entry with the key. -/
def dict_get : Ledger → String → Option (List String)
  | [], _ => none
  | p :: ps, k => if p.1 = k then some p.2 else dict_get ps k

/-- Python membership test `k in config`. -/
def dict_member : Ledger → String → Bool
  | [], _ => false
  | p :: ps, k => p.1 = k || dict_member ps k

/-- Python `del config[k]`. -/
def dict_del (c : Ledger) (k : String) : Ledger :=
  c.filter (fun p => p.1 ≠ k)

/-- load_config: parse the config file if it exists, else the empty object. -/
def load_config (st : LedgerFile) : Ledger :=
  st.getD []

/-- save_file_list: read-modify-write of the config file, setting the
entry of one store id. -/
def save_file_list (storeId : String) (files : List String) (st : LedgerFile) : LedgerFile :=
  some (dict_set (load_config st) storeId files)

/-- get_file_list: the ledger entry of a store id, empty when absent. -/
def get_file_list (storeId : String) (st : LedgerFile) : List String :=
  (dict_get (load_config st) storeId).getD []

/-- delete_file_list: remove the entry if present (and only then rewrite
the file); otherwise leave the file untouched. -/
def delete_file_list (storeId : String) (st : LedgerFile) : LedgerFile :=
  let config := load_config st
  if dict_member config storeId then some (dict_del config storeId) else st

/-- The store-deletion handler of the management tab: inside one
try/except, first `client.file_search_stores.delete` (whose outcome the
Boolean `remoteDeleteOk` models: `false` means the call raised), then
`delete_file_list`.  When the remote call raises, control jumps to the
`except` arm and the ledger is never touched.  The returned Boolean is
whether the handler reached its success message. -/
def deleteStoreHandler (remoteDeleteOk : Bool) (storeId : String) (st : LedgerFile) :
    LedgerFile × Bool :=
  if remoteDeleteOk then (delete_file_list storeId st, true) else (st, false)

/-! ## is_scanned_pdf -/

/-- Python str.strip() with no argument: drop whitespace from both ends. -/
def pyStrip (s : String) : String :=
  String.mk (((s.data.dropWhile Char.isWhitespace).reverse.dropWhile
    Char.isWhitespace).reverse)

/-- is_scanned_pdf: the probe opens the PDF and reads the text of its
pages.  The input models that interaction: `none` when opening or reading
raises (the bare `except:` path), `some pages` with the per-page extracted
text otherwise.  The probe concatenates the text of the first three pages
and classifies as scanned when the stripped length is below 100. -/
def is_scanned_pdf (doc : Option (List String)) : Bool :=
  match doc with
  | none => false
  | some pages =>
    let text := (pages.take 3).foldl (fun acc p => acc ++ p) ""
    decide ((pyStrip text).length < 100)

/-! ## wait_for_operation -/

/-- Polling loop body of wait_for_operation.  `k` is the number of fetches
performed so far (the k-th status is `opDone k`), `elapsed` the seconds
since `start_time` (each iteration sleeps 3 seconds; fetches are
instantaneous in the model).  Mirrors:
while not done: if elapsed > timeout: raise TimeoutError(msg); sleep 3;
refetch.  `fuel` only bounds the structural recursion: the loop body is
entered with fuel exceeding the number of iterations the timeout check
admits, so the exhaustion branch is unreachable (see `waitAux_extra_fuel`
below, proving the budget of `wait_for_operation` suffices). -/
def waitAux (opDone : Nat → Bool) (timeout : Nat) : Nat → Nat → Nat → Except String Nat
  | 0, _, _ => .error "작업 시간 초과 (5분)"
  | fuel + 1, k, elapsed =>
    if opDone k then .ok k
    else if elapsed > timeout then .error "작업 시간 초과 (5분)"
    else waitAux opDone timeout fuel (k + 1) (elapsed + 3)

/-- wait_for_operation: poll the operation until done, raising a
TimeoutError (modelled as `.error` with the message of the raise) once the
elapsed time exceeds the timeout.  On success it returns the index of the
fetch that reported done, which is also the number of sleeps performed.
The fuel `timeout / 3 + 2` strictly exceeds the number of loop iterations
possible before the elapsed-time check raises, so the model's behaviour is
decided by the done flag and the timeout alone. -/
def wait_for_operation (opDone : Nat → Bool) (timeout : Nat) : Except String Nat :=
  waitAux opDone timeout (timeout / 3 + 2) 0 0

/-! ## Conversion strategies and the ingestion pipeline -/

/-- Outcomes of every external interaction one `upload_and_import_file`
call can perform.  Converters catch their own exceptions and return
`None` on failure, hence `Option String`. -/
structure Client where
  /-- Result of convert_excel_to_markdown on the staged file. -/
  excelConv : Option String
  /-- Result of convert_with_pymupdf4llm on the staged file. -/
  pymupdfConv : Option String
  /-- Result of convert_with_docling on the staged file. -/
  doclingConv : Option String
  /-- Result of convert_with_gemini_vision on the staged file. -/
  visionConv : Option String
  /-- What the is_scanned_pdf probe reads from the staged file
  (none = the probe raises). -/
  pdfProbe : Option (List String)
  /-- client.files.upload: file handle name, or the raised message. -/
  uploadResult : Except String String
  /-- client.file_search_stores.import_file: ok, or the raised message. -/
  importResult : Except String Unit
  /-- Status stream of the import operation, for wait_for_operation. -/
  opDone : Nat → Bool

/-- Filesystem and upload log visible to one pipeline invocation. -/
structure PipeState where
  /-- Paths that currently exist on disk. -/
  files : List String
  /-- Log of successful client.files.upload calls:
  (path, mime type, display name). -/
  uploads : List (String × String × String)
deriving DecidableEq

/-- Extension part of os.path.splitext(name), including the leading dot;
leading dots of the name do not start an extension. -/
def splitext_ext (name : String) : String :=
  let cs := name.data
  let lead := (cs.takeWhile (fun c => c = '.')).length
  let rest := cs.drop lead
  let after := (rest.reverse.takeWhile (fun c => c ≠ '.')).reverse
  if after.length = rest.length then "" else String.mk ('.' :: after)

/-- Python str.lower() applied character by character (its effect on the
ASCII extension strings the pipeline compares against). -/
def lowerStr (s : String) : String :=
  String.mk (s.data.map Char.toLower)

/-- The spreadsheet extensions the pipeline converts
(`if suffix in ['.xlsx', '.xls', '.xlsm']`). -/
def excelSuffixes : List String := [".xlsx", ".xls", ".xlsm"]

/-- The conversion stage of upload_and_import_file: which converter runs
and what it returns (`none` also when no conversion applies). -/
def conversionFor (c : Client) (ext : String) (preDocling : Bool) : Option String :=
  if ext ∈ excelSuffixes then c.excelConv
  else if ext = ".pdf" then
    if is_scanned_pdf c.pdfProbe then c.visionConv
    else if preDocling then c.doclingConv else c.pymupdfConv
  else none

/-- The display name set alongside the conversion stage (set whether or
not the converter succeeds). -/
def displayNameFor (c : Client) (ext fileName : String) : String :=
  if ext ∈ excelSuffixes then fileName ++ " (표 최적화)"
  else if ext = ".pdf" then
    if is_scanned_pdf c.pdfProbe then fileName ++ " (Vision 추출)"
    else fileName ++ " (마크다운 변환)"
  else fileName

/-- md_path as assigned by step 3 of the pipeline: only when the converted
content is truthy (neither None nor the empty string), the staged path
with every occurrence of the suffix replaced by ".md". -/
def mdPathFor (conv : Option String) (tmpPath ext : String) : Option String :=
  match conv with
  | some s => if s = "" then none else some (tmpPath.replace ext ".md")
  | none => none

/-- Steps 4-5 of the pipeline (upload, import, await), still inside the
try: any raise is caught by the except arm, which returns (False, str(e)).
A successful upload is logged before import is attempted. -/
def pipelineRemote (c : Client) (uploadPath mime displayName : String) (st : PipeState) :
    (Bool × String) × PipeState :=
  match c.uploadResult with
  | .error e => ((false, e), st)
  | .ok _ =>
    let st' := { st with uploads := (uploadPath, mime, displayName) :: st.uploads }
    match c.importResult with
    | .error e => ((false, e), st')
    | .ok _ =>
      match wait_for_operation c.opDone 300 with
      | .error e => ((false, e), st')
      | .ok _ => ((true, displayName), st')

/-- The finally block: remove the staged original if it exists, then the
markdown blob if one was assigned and exists. -/
def cleanup (tmpPath : String) (mdPath : Option String) (st : PipeState) : PipeState :=
  let st1 := { st with files := st.files.filter (fun p => p ≠ tmpPath) }
  match mdPath with
  | some mp => { st1 with files := st1.files.filter (fun p => p ≠ mp) }
  | none => st1

/-- upload_and_import_file: stage the uploaded bytes under the original
suffix, convert according to the extension, persist truthy converted
content as a second `.md` blob (uploaded as text/markdown; otherwise the
original blob as application/octet-stream), upload, import, await the
operation; exceptions of the remote steps are caught and returned as
(False, message); the finally block removes both staged blobs.
`tmpPath` is the fresh path NamedTemporaryFile chose. -/
def upload_and_import_file (c : Client) (fileName tmpPath : String) (preDocling : Bool)
    (st0 : PipeState) : (Bool × String) × PipeState :=
  let ext := lowerStr (splitext_ext fileName)
  let st1 := { st0 with files := tmpPath :: st0.files }
  let conv := conversionFor c ext preDocling
  let displayName := displayNameFor c ext fileName
  let mdPath := mdPathFor conv tmpPath ext
  let uploadPath := match mdPath with | some mp => mp | none => tmpPath
  let mime := match mdPath with
    | some _ => "text/markdown"
    | none => "application/octet-stream"
  let st2 := match mdPath with
    | some mp => { st1 with files := mp :: st1.files }
    | none => st1
  let pr := pipelineRemote c uploadPath mime displayName st2
  (pr.1, cleanup tmpPath mdPath pr.2)

/-! ## Spreadsheet conversion -/

/-- A parsed worksheet as pandas hands it to the loop: column labels and
rows of cells, a missing cell being `none` (NaN). -/
structure DataFrame where
  cols : List String
  rows : List (List (Option String))
deriving DecidableEq

/-- pandas df.empty: true when either axis has length 0. -/
def DataFrame.empty (df : DataFrame) : Bool :=
  df.rows.isEmpty || df.cols.isEmpty

/-- Concatenation of a list of strings with a separator between
consecutive elements (the semantics of str.join). -/
def joinSep (sep : String) : List String → String
  | [] => ""
  | [a] => a
  | a :: b :: as => a ++ sep ++ joinSep sep (b :: as)

/-- Concatenation of a list of strings. -/
def concatAll : List String → String
  | [] => ""
  | a :: as => a ++ concatAll as

/-- One row of a pipe-format markdown table. -/
def mdRow (cells : List String) : String :=
  "| " ++ joinSep " | " cells ++ " |"

/-- Models pandas DataFrame.to_markdown(index=False): header row,
alignment separator row, then the data rows, one line each (column-width
padding of the pipe format is not modelled; it adds only spaces). -/
def to_markdown (cols : List String) (rows : List (List String)) : String :=
  joinSep "\n" (mdRow cols :: mdRow (cols.map fun _ => ":---") :: rows.map mdRow)

/-- pandas df.fillna("") applied to the cell grid. -/
def fillna (rows : List (List (Option String))) : List (List String) :=
  rows.map (fun r => r.map (fun cell => cell.getD ""))

/-- The text appended for one non-empty sheet: the level-2 heading naming
the sheet, then its markdown table. -/
def sheetBlock (p : String × DataFrame) : String :=
  "\n\n## 엑셀 시트: " ++ p.1 ++ "\n\n" ++ to_markdown p.2.cols (fillna p.2.rows)

/-- convert_excel_to_markdown: `wb` models what pd.read_excel(...,
sheet_name=None) yields — `none` when parsing raises (caught, returning
None), otherwise the ordered sheet dictionary.  Empty sheets are skipped;
each non-empty sheet contributes its heading and table. -/
def convert_excel_to_markdown (wb : Option (List (String × DataFrame))) : Option String :=
  match wb with
  | none => none
  | some sheets =>
    some (sheets.foldl (fun acc p => if p.2.empty then acc else acc ++ sheetBlock p) "")

/-! ## Upload interface -/

/-- The extension whitelist passed to st.file_uploader in the upload tab. -/
def uploaderTypes : List String := ["pdf", "xlsx", "xls", "txt", "md", "csv", "docx"]

/-- Modelled from the spec: the accepted upload types the specification
lists (pdf, xlsx, xls, xlsm, txt, md, csv, docx). -/
def specAcceptedTypes : List String :=
  ["pdf", "xlsx", "xls", "xlsm", "txt", "md", "csv", "docx"]

/-- Number of occurrences of the markdown heading marker character in a
string.  Under the hash-free side conditions below, every occurrence in
the conversion output comes from an emitted level-2 heading, which
contributes exactly two. -/
def hashCount (s : String) : Nat :=
  s.data.count '#'

/-- The string contains no markdown heading marker character. -/
abbrev hashFree (s : String) : Prop :=
  '#' ∉ s.data

/-- Every text a sheet contributes to the conversion output — its name,
its column labels and its cell values (missing cells render empty) — is
free of the heading marker character. -/
abbrev sheetHashFree (p : String × DataFrame) : Prop :=
  hashFree p.1 ∧ (∀ c ∈ p.2.cols, hashFree c) ∧
    ∀ r ∈ p.2.rows, ∀ cell ∈ r, hashFree (cell.getD "")

/-- A client whose Excel conversion fails while every remote step
succeeds at once. -/
def convFailRemoteOkClient : Client :=
  { excelConv := none, pymupdfConv := none, doclingConv := none, visionConv := none,
    pdfProbe := none, uploadResult := .ok "files/f1", importResult := .ok (),
    opDone := fun _ => true }

/-- A client whose Excel conversion fails and whose upload call raises. -/
def convFailUploadFailClient : Client :=
  { excelConv := none, pymupdfConv := none, doclingConv := none, visionConv := none,
    pdfProbe := none, uploadResult := .error "upload failed", importResult := .ok (),
    opDone := fun _ => true }

/-- A client for a scanned PDF (probe reads an empty page) whose vision
conversion fails while every remote step succeeds at once. -/
def visionFailRemoteOkClient : Client :=
  { excelConv := none, pymupdfConv := none, doclingConv := none, visionConv := none,
    pdfProbe := some [""], uploadResult := .ok "files/f2", importResult := .ok (),
    opDone := fun _ => true }

/-- The sample workbook of the C7 witness: one non-empty sheet with a
missing cell, one empty sheet. -/
def sampleWorkbook : List (String × DataFrame) :=
  [("Sheet1", { cols := ["a", "b"], rows := [[some "1", none]] }),
   ("Empty", { cols := [], rows := [] })]

/-! ## Ledger lemmas -/

theorem dict_get_set_self (c : Ledger) (k : String) (v : List String) :
    dict_get (dict_set c k v) k = some v := by
  induction c with
  | nil => simp [dict_set, dict_get]
  | cons p ps ih =>
    by_cases h : p.1 = k
    · simp [dict_set, dict_get, h]
    · simp [dict_set, dict_get, h, ih]

theorem dict_get_set_ne (c : Ledger) (k k' : String) (v : List String) (h : k' ≠ k) :
    dict_get (dict_set c k v) k' = dict_get c k' := by
  induction c with
  | nil => simp [dict_set, dict_get, Ne.symm h]
  | cons p ps ih =>
    by_cases hp : p.1 = k
    · simp [dict_set, dict_get, hp, Ne.symm h]
    · simp [dict_set, dict_get, hp, ih]

theorem dict_get_del_self (c : Ledger) (k : String) :
    dict_get (dict_del c k) k = none := by
  induction c with
  | nil => simp [dict_del, dict_get]
  | cons p ps ih =>
    by_cases h : p.1 = k
    · simpa [dict_del, h] using ih
    · simpa [dict_del, dict_get, h] using ih

theorem dict_get_of_not_member (c : Ledger) (k : String) (h : dict_member c k = false) :
    dict_get c k = none := by
  induction c with
  | nil => simp [dict_get]
  | cons p ps ih =>
    simp only [dict_member, Bool.or_eq_false_iff, decide_eq_false_iff_not] at h
    simp [dict_get, h.1, ih h.2]

theorem get_file_list_delete_file_list (storeId : String) (st : LedgerFile) :
    get_file_list storeId (delete_file_list storeId st) = [] := by
  by_cases h : dict_member (load_config st) storeId
  · simp only [load_config] at h
    simp [get_file_list, delete_file_list, h, load_config, dict_get_del_self]
  · simp only [Bool.not_eq_true, load_config] at h
    simp [get_file_list, delete_file_list, h, load_config,
      dict_get_of_not_member (st.getD []) storeId h]

/-! ## wait_for_operation lemmas -/

theorem waitAux_never (opDone : Nat → Bool) (timeout : Nat) (h : ∀ k, opDone k = false) :
    ∀ fuel k elapsed, waitAux opDone timeout fuel k elapsed = .error "작업 시간 초과 (5분)" := by
  intro fuel
  induction fuel with
  | zero => intro k elapsed; rfl
  | succ n ih =>
    intro k elapsed
    simp only [waitAux, h k, Bool.false_eq_true, if_false]
    split
    · rfl
    · exact ih (k + 1) (elapsed + 3)

theorem waitAux_fuel_succ (opDone : Nat → Bool) (timeout : Nat) :
    ∀ fuel k elapsed, timeout < elapsed + 3 * fuel →
      waitAux opDone timeout (fuel + 1) k elapsed =
        waitAux opDone timeout (fuel + 2) k elapsed := by
  intro fuel
  induction fuel with
  | zero =>
    intro k elapsed hlt
    simp only [Nat.mul_zero, Nat.add_zero] at hlt
    simp only [waitAux, hlt, if_true]
  | succ n ih =>
    intro k elapsed hlt
    simp only [waitAux]
    split
    · rfl
    · split
      · rfl
      · exact ih (k + 1) (elapsed + 3) (by omega)

/-- Justification of the fuel budget of wait_for_operation: granting the
loop any extra fuel does not change its result, so the structural fuel is
not observable and the model is decided by the done flag and the timeout
alone. -/
theorem waitAux_extra_fuel (opDone : Nat → Bool) (timeout : Nat) :
    ∀ j, waitAux opDone timeout (timeout / 3 + 2 + j) 0 0 = wait_for_operation opDone timeout := by
  intro j
  induction j with
  | zero => rfl
  | succ n ih =>
    rw [show timeout / 3 + 2 + (n + 1) = (timeout / 3 + 1 + n) + 2 from by omega]
    rw [← waitAux_fuel_succ opDone timeout (timeout / 3 + 1 + n) 0 0 (by omega)]
    rw [show (timeout / 3 + 1 + n) + 1 = timeout / 3 + 2 + n from by omega]
    exact ih

/-! ## Pipeline state lemmas -/

theorem pipelineRemote_files (c : Client) (u m d : String) (st : PipeState) :
    (pipelineRemote c u m d st).2.files = st.files := by
  unfold pipelineRemote
  cases c.uploadResult with
  | error e => rfl
  | ok v =>
    cases c.importResult with
    | error e => rfl
    | ok v2 =>
      cases wait_for_operation c.opDone 300 with
      | error e => rfl
      | ok n => rfl

theorem mem_cleanup_files {q tmpPath : String} {mdPath : Option String} {st : PipeState}
    (h : q ∈ (cleanup tmpPath mdPath st).files) :
    q ∈ st.files ∧ q ≠ tmpPath ∧ ∀ mp, mdPath = some mp → q ≠ mp := by
  cases mdPath with
  | none =>
    rw [cleanup, List.mem_filter] at h
    refine ⟨h.1, by simpa using h.2, ?_⟩
    intro mp hmp
    cases hmp
  | some mp =>
    rw [cleanup] at h
    simp only [List.mem_filter, decide_eq_true_eq] at h
    refine ⟨h.1.1, h.1.2, ?_⟩
    intro mp' hmp'
    cases hmp'
    exact h.2

/-- The files on disk when the finally block of upload_and_import_file
runs: the staged original, the markdown blob when one was written, on top
of the initial filesystem; the remote steps create no files. -/
theorem upload_and_import_file_final_files (c : Client) (fileName tmpPath : String)
    (pre : Bool) (st0 : PipeState) :
    (upload_and_import_file c fileName tmpPath pre st0).2.files =
      (cleanup tmpPath
        (mdPathFor (conversionFor c (lowerStr (splitext_ext fileName)) pre) tmpPath
          (lowerStr (splitext_ext fileName)))
        { st0 with files :=
            (match mdPathFor (conversionFor c (lowerStr (splitext_ext fileName)) pre) tmpPath
                (lowerStr (splitext_ext fileName)) with
              | some mp => mp :: tmpPath :: st0.files
              | none => tmpPath :: st0.files) }).files := by
  unfold upload_and_import_file
  cases hmd : mdPathFor (conversionFor c (lowerStr (splitext_ext fileName)) pre) tmpPath
      (lowerStr (splitext_ext fileName)) with
  | none =>
    simp only [hmd, cleanup, pipelineRemote_files]
  | some mp =>
    simp only [hmd, cleanup, pipelineRemote_files]


/-! ## Claim theorems -/

/-- C1 is refuted on the code: a concrete invocation whose Excel
conversion fails (the converter returns None) while upload, import and
polling succeed returns success=true with the annotated display name —
the conversion failure is absorbed into a success outcome, the raw staged
blob having been uploaded with the generic binary MIME type. -/
theorem c1_counterexample :
    upload_and_import_file convFailRemoteOkClient "report.xlsx" "/tmp/tmpabc.xlsx" false
        ⟨[], []⟩ =
      ((true, "report.xlsx (표 최적화)"),
        ⟨[], [("/tmp/tmpabc.xlsx", "application/octet-stream", "report.xlsx (표 최적화)")]⟩) :=
  rfl

/-- C1 (amended): when the selected conversion strategy fails — whichever
of the four it is: spreadsheet, vision, Docling or pymupdf4llm, each with
its own annotated display name — the pipeline neither raises past its
boundary nor reports the conversion failure; it falls back to uploading
the original staged blob with MIME application/octet-stream under the
branch's annotated display name, returns (true, annotated name) when the
upload, import and polling steps all succeed, and returns (false, reason)
exactly when one of those remote steps fails. -/
theorem c1_conversion_failure_fallback (c : Client) (fileName tmpPath : String)
    (pre : Bool) (st0 : PipeState)
    (hconv : conversionFor c (lowerStr (splitext_ext fileName)) pre = none) :
    (upload_and_import_file c fileName tmpPath pre st0).1 =
      (match c.uploadResult with
        | .error e => (false, e)
        | .ok _ =>
          match c.importResult with
          | .error e => (false, e)
          | .ok _ =>
            match wait_for_operation c.opDone 300 with
            | .error e => (false, e)
            | .ok _ =>
              (true, displayNameFor c (lowerStr (splitext_ext fileName)) fileName)) ∧
    (∀ h, c.uploadResult = .ok h →
      (tmpPath, "application/octet-stream",
          displayNameFor c (lowerStr (splitext_ext fileName)) fileName) ∈
        (upload_and_import_file c fileName tmpPath pre st0).2.uploads) := by
  unfold upload_and_import_file
  simp only [hconv, mdPathFor]
  constructor
  · unfold pipelineRemote
    cases c.uploadResult with
    | error e => rfl
    | ok v =>
      cases c.importResult with
      | error e => rfl
      | ok v2 =>
        cases wait_for_operation c.opDone 300 with
        | error e => rfl
        | ok n => rfl
  · intro h hh
    unfold pipelineRemote
    rw [hh]
    cases c.importResult with
    | error e => simp [cleanup]
    | ok v2 =>
      cases wait_for_operation c.opDone 300 with
      | error e => simp [cleanup]
      | ok n => simp [cleanup]

/-- C1 amended, witnessed at two concrete failing strategies: an Excel
conversion failure whose upload also raises returns the structured
failure with the raised message, and a vision conversion failure on a
scanned PDF is absorbed into a success carrying the vision-annotated
name once the remote steps succeed. -/
theorem c1_witness :
    (upload_and_import_file convFailUploadFailClient "data.xls" "/tmp/t1.xls" true
        ⟨[], []⟩).1 = (false, "upload failed") ∧
    (upload_and_import_file visionFailRemoteOkClient "scan.pdf" "/tmp/t2.pdf" false
        ⟨[], []⟩).1 = (true, "scan.pdf (Vision 추출)") := by
  constructor
  · rw [(c1_conversion_failure_fallback convFailUploadFailClient "data.xls" "/tmp/t1.xls"
      true ⟨[], []⟩ rfl).1]
    rfl
  · rw [(c1_conversion_failure_fallback visionFailRemoteOkClient "scan.pdf" "/tmp/t2.pdf"
      false ⟨[], []⟩ rfl).1]
    rfl

/-- C3: on every exit path of upload_and_import_file — success,
conversion failure, upload failure, import failure, timeout — the staged
original blob is gone when the call returns, and every path existing
afterwards already existed before the call, so the markdown blob staged
during the call is gone as well. -/
theorem c3_staged_blobs_removed (c : Client) (fileName tmpPath : String) (pre : Bool)
    (st0 : PipeState) :
    tmpPath ∉ (upload_and_import_file c fileName tmpPath pre st0).2.files ∧
    ∀ q ∈ (upload_and_import_file c fileName tmpPath pre st0).2.files, q ∈ st0.files := by
  constructor
  · intro hq
    rw [upload_and_import_file_final_files] at hq
    exact (mem_cleanup_files hq).2.1 rfl
  · intro q hq
    rw [upload_and_import_file_final_files] at hq
    obtain ⟨hmem, hne, hmd⟩ := mem_cleanup_files hq
    rcases hcase : mdPathFor (conversionFor c (lowerStr (splitext_ext fileName)) pre) tmpPath
        (lowerStr (splitext_ext fileName)) with _ | mp
    · rw [hcase] at hmem
      simp only [List.mem_cons] at hmem
      rcases hmem with h1 | h2
      · exact absurd h1 hne
      · exact h2
    · rw [hcase] at hmem
      simp only [List.mem_cons] at hmem
      rcases hmem with h1 | h2 | h3
      · exact absurd h1 (hmd mp hcase)
      · exact absurd h2 hne
      · exact h3

set_option maxRecDepth 4096 in
/-- C2 is refuted on the code: the timeout error of wait_for_operation
carries one fixed message.  With configured budget 60 it is identical to
the message for budget 300 and names five minutes; the digit 6 never
occurs in it, so the decimal numeral 60 of the configured budget cannot
appear in the message. -/
theorem c2_counterexample :
    wait_for_operation (fun _ => false) 60 = .error "작업 시간 초과 (5분)" ∧
    wait_for_operation (fun _ => false) 300 = .error "작업 시간 초과 (5분)" ∧
    "작업 시간 초과 (5분)".data.count '6' = 0 := by
  refine ⟨rfl, rfl, ?_⟩
  decide

/-- C2 (amended): an operation reporting done on the first poll makes
wait_for_operation return at once, after zero sleeps; an operation that
never reports done makes it raise a TimeoutError whose message is the
fixed string naming the five-minute default budget, whatever timeout was
configured. -/
theorem c2_wait_behavior (opDone : Nat → Bool) (timeout : Nat) :
    (opDone 0 = true → wait_for_operation opDone timeout = .ok 0) ∧
    ((∀ k, opDone k = false) →
      wait_for_operation opDone timeout = .error "작업 시간 초과 (5분)") := by
  constructor
  · intro h
    rw [wait_for_operation, show timeout / 3 + 2 = timeout / 3 + 1 + 1 from rfl]
    simp [waitAux, h]
  · intro h
    exact waitAux_never opDone timeout h _ 0 0

/-- C2 amended, witnessed: done on the first poll returns ok after zero
sleeps with budget 300; an operation that never finishes with configured
budget 7 raises the fixed five-minute message. -/
theorem c2_witness :
    wait_for_operation (fun _ => true) 300 = .ok 0 ∧
    wait_for_operation (fun _ => false) 7 = .error "작업 시간 초과 (5분)" :=
  ⟨(c2_wait_behavior (fun _ => true) 300).1 rfl,
   (c2_wait_behavior (fun _ => false) 7).2 (fun _ => rfl)⟩

/-- C4 is refuted on the code: when the remote store deletion raises, the
handler's except arm skips delete_file_list, so the ledger entry survives
and get_file_list still returns the old non-empty list. -/
theorem c4_counterexample :
    get_file_list "stores/s1"
        (deleteStoreHandler false "stores/s1" (some [("stores/s1", ["doc.pdf"])])).1 =
      ["doc.pdf"] :=
  rfl

/-- C4 (amended): when the remote delete call succeeds the handler removes
the ledger entry, so a subsequent get_file_list for that store id returns
the empty list; when the remote delete raises, the ledger file is left
entirely unchanged. -/
theorem c4_delete_ledger (storeId : String) (st : LedgerFile) :
    get_file_list storeId (deleteStoreHandler true storeId st).1 = [] ∧
    (deleteStoreHandler false storeId st).1 = st := by
  constructor
  · simpa [deleteStoreHandler] using get_file_list_delete_file_list storeId st
  · rfl

/-- C9: storing a ledger list for a store id and immediately retrieving it
returns the identical ordered list, from any prior ledger file state. -/
theorem c9_ledger_roundtrip (storeId : String) (files : List String) (st : LedgerFile) :
    get_file_list storeId (save_file_list storeId files st) = files := by
  simp [get_file_list, save_file_list, load_config, dict_get_set_self]

/-- C10: save_file_list only touches the entry of its own store id: the
ledger lookup of every other store id is unchanged, also when that id has
no entry or the ledger file did not exist. -/
theorem c10_ledger_frame (s t : String) (files : List String) (st : LedgerFile)
    (h : t ≠ s) :
    get_file_list t (save_file_list s files st) = get_file_list t st := by
  simp [get_file_list, save_file_list, load_config, dict_get_set_ne _ _ _ _ h]

/-- C10 witnessed at concrete distinct store ids: the entry of the
untouched store survives a save to the other one. -/
theorem c10_witness :
    get_file_list "stores/b"
        (save_file_list "stores/a" ["x.pdf"] (some [("stores/b", ["y.md"])])) = ["y.md"] :=
  c10_ledger_frame "stores/a" "stores/b" ["x.pdf"] (some [("stores/b", ["y.md"])])
    (by decide)

/-- C5: for every PDF the probe can open and read, is_scanned_pdf returns
true exactly when the concatenated extracted text of the first three
pages, trimmed of surrounding whitespace, is shorter than 100 characters;
at 100 or more the document is classified digital. -/
theorem c5_scanned_threshold (pages : List String) :
    is_scanned_pdf (some pages) = true ↔
      (pyStrip (String.join (pages.take 3))).length < 100 := by
  simp [is_scanned_pdf, String.join]

/-- C5 witnessed on a short concrete text: nine trimmed characters is
below the threshold, so the probe classifies the document scanned. -/
theorem c5_witness :
    is_scanned_pdf (some ["  short", " text ", "", "page4 ignored"]) = true ∧
    (pyStrip (String.join (["  short", " text ", "", "page4 ignored"].take 3))).length < 100 :=
  ⟨(c5_scanned_threshold ["  short", " text ", "", "page4 ignored"]).2 (by decide),
   by decide⟩

/-- C6: when opening or reading the PDF raises, is_scanned_pdf returns
false, and the pipeline's PDF branch therefore selects the digital
converters (Docling or pymupdf4llm, per the configured method), not the
vision path. -/
theorem c6_probe_fail_open :
    is_scanned_pdf none = false ∧
    ∀ (c : Client) (pre : Bool), c.pdfProbe = none →
      conversionFor c ".pdf" pre = (if pre then c.doclingConv else c.pymupdfConv) := by
  constructor
  · rfl
  · intro c pre h
    simp [conversionFor, excelSuffixes, is_scanned_pdf, h]

/-- C6 witnessed: a client whose probe raises is routed to the fast
digital converter when Docling is not selected. -/
theorem c6_witness :
    conversionFor convFailRemoteOkClient ".pdf" false = convFailRemoteOkClient.pymupdfConv :=
  (c6_probe_fail_open.2 convFailRemoteOkClient false rfl).trans (by simp)

/-! ## Heading count lemmas for the spreadsheet conversion -/

theorem hashCount_append (a b : String) : hashCount (a ++ b) = hashCount a + hashCount b := by
  simp [hashCount, String.data_append]

theorem hashCount_eq_zero_of_hashFree {s : String} (h : hashFree s) : hashCount s = 0 :=
  List.count_eq_zero.mpr h

theorem hashCount_joinSep (sep : String) (hsep : hashCount sep = 0) :
    ∀ l : List String, (∀ x ∈ l, hashCount x = 0) → hashCount (joinSep sep l) = 0 := by
  intro l
  induction l with
  | nil => intro _; rfl
  | cons a as ih =>
    intro h
    cases as with
    | nil => simpa [joinSep] using h a (by simp)
    | cons b bs =>
      have ha := h a (by simp)
      have hrest : ∀ x ∈ b :: bs, hashCount x = 0 := fun x hx => h x (by simp [hx])
      simp [joinSep, hashCount_append, ha, hsep, ih hrest]

theorem hashCount_mdRow (cells : List String) (h : ∀ c ∈ cells, hashCount c = 0) :
    hashCount (mdRow cells) = 0 := by
  have hj := hashCount_joinSep " | " (by decide) cells h
  simp [mdRow, hashCount_append, hj]
  decide

theorem hashCount_to_markdown (cols : List String) (rows : List (List String))
    (hc : ∀ c ∈ cols, hashCount c = 0)
    (hr : ∀ r ∈ rows, ∀ c ∈ r, hashCount c = 0) :
    hashCount (to_markdown cols rows) = 0 := by
  apply hashCount_joinSep "\n" (by decide)
  intro x hx
  simp only [List.mem_cons, List.mem_map] at hx
  rcases hx with h1 | h2 | h3
  · rw [h1]; exact hashCount_mdRow cols hc
  · rw [h2]
    apply hashCount_mdRow
    intro c hcmem
    rw [List.mem_map] at hcmem
    obtain ⟨_, _, hcc⟩ := hcmem
    rw [← hcc]
    decide
  · obtain ⟨r, hrm, hrr⟩ := h3
    rw [← hrr]
    exact hashCount_mdRow r (hr r hrm)

theorem hashCount_sheetBlock (p : String × DataFrame) (h : sheetHashFree p) :
    hashCount (sheetBlock p) = 2 := by
  obtain ⟨hname, hcols, hcells⟩ := h
  have hmd : hashCount (to_markdown p.2.cols (fillna p.2.rows)) = 0 := by
    apply hashCount_to_markdown
    · exact fun c hc => hashCount_eq_zero_of_hashFree (hcols c hc)
    · intro r hr c hc
      simp only [fillna, List.mem_map] at hr
      obtain ⟨r0, hr0, hr0eq⟩ := hr
      rw [← hr0eq] at hc
      rw [List.mem_map] at hc
      obtain ⟨cell, hcell, hcelleq⟩ := hc
      rw [← hcelleq]
      exact hashCount_eq_zero_of_hashFree (hcells r0 hr0 cell hcell)
  simp [sheetBlock, hashCount_append, hmd, hashCount_eq_zero_of_hashFree hname]
  decide

theorem hashCount_concatAll (l : List String) :
    hashCount (concatAll l) = (l.map hashCount).sum := by
  induction l with
  | nil => rfl
  | cons a as ih => simp [concatAll, hashCount_append, ih]

theorem convert_excel_foldl (sheets : List (String × DataFrame)) :
    ∀ acc : String,
      sheets.foldl (fun acc p => if p.2.empty then acc else acc ++ sheetBlock p) acc =
        acc ++ concatAll ((sheets.filter (fun p => !p.2.empty)).map sheetBlock) := by
  induction sheets with
  | nil => intro acc; simp [concatAll]
  | cons p ps ih =>
    intro acc
    by_cases hp : p.2.empty
    · simp [hp, ih]
    · have hassoc : ∀ a b c : String, a ++ b ++ c = a ++ (b ++ c) := by
        intro a b c
        apply String.ext
        simp [String.data_append]
      simp [hp, ih, concatAll, hassoc]

/-- C3 witnessed at a concrete invocation: the staged original blob is
gone from the filesystem when the call returns. -/
theorem c3_witness :
    "/tmp/tmpabc.xlsx" ∉
      (upload_and_import_file convFailRemoteOkClient "report.xlsx" "/tmp/tmpabc.xlsx" false
        ⟨[], []⟩).2.files :=
  (c3_staged_blobs_removed convFailRemoteOkClient "report.xlsx" "/tmp/tmpabc.xlsx" false
    ⟨[], []⟩).1

/-- C7: for a parseable workbook whose texts carry no heading marker and
which has at least one non-empty sheet, the conversion output is exactly
the concatenation, over the non-empty sheets in order, of one block per
sheet — a level-2 heading naming the sheet followed by its rows as a
markdown table with missing cells rendered empty — so it contains exactly
one level-2 heading per non-empty sheet (two heading marker characters
each) and none for empty sheets, which contribute nothing at all. -/
theorem c7_excel_headings (sheets : List (String × DataFrame))
    (hfree : ∀ p ∈ sheets, sheetHashFree p)
    (hne : ∃ p ∈ sheets, p.2.empty = false) :
    ∃ out, convert_excel_to_markdown (some sheets) = some out ∧
      out = concatAll ((sheets.filter (fun p => !p.2.empty)).map sheetBlock) ∧
      hashCount out = 2 * sheets.countP (fun p => !p.2.empty) := by
  refine ⟨_, rfl, ?_, ?_⟩
  · show (sheets.foldl (fun acc p => if p.2.empty then acc else acc ++ sheetBlock p) "") = _
    rw [convert_excel_foldl sheets ""]
    apply String.ext
    simp [String.data_append]
  · show hashCount (sheets.foldl
      (fun acc p => if p.2.empty then acc else acc ++ sheetBlock p) "") = _
    rw [convert_excel_foldl sheets ""]
    have hgen : ∀ l : List (String × DataFrame), (∀ p ∈ l, sheetHashFree p) →
        hashCount (concatAll (l.map sheetBlock)) = 2 * l.length := by
      intro l
      induction l with
      | nil => intro _; rfl
      | cons p ps ih =>
        intro h
        have hp := hashCount_sheetBlock p (h p (by simp))
        have hps := ih (fun q hq => h q (by simp [hq]))
        simp [concatAll, hashCount_append, hp, hps, Nat.mul_add, Nat.mul_succ]
        omega
    have hsub : ∀ p ∈ sheets.filter (fun p => !p.2.empty), sheetHashFree p := by
      intro p hp
      exact hfree p (List.mem_of_mem_filter hp)
    have hlen : (sheets.filter (fun p => !p.2.empty)).length =
        sheets.countP (fun p => !p.2.empty) :=
      (List.countP_eq_length_filter _ _).symm
    rw [show hashCount ("" ++ concatAll ((sheets.filter (fun p => !p.2.empty)).map sheetBlock))
        = hashCount (concatAll ((sheets.filter (fun p => !p.2.empty)).map sheetBlock)) from by
      apply congrArg
      apply String.ext
      simp [String.data_append]]
    rw [hgen _ hsub, hlen]

/-- C7 witnessed on the sample workbook: one non-empty sheet with a
missing cell and one empty sheet give an output with exactly one heading. -/
theorem c7_witness :
    ∃ out, convert_excel_to_markdown (some sampleWorkbook) = some out ∧
      out = concatAll ((sampleWorkbook.filter (fun p => !p.2.empty)).map sheetBlock) ∧
      hashCount out = 2 * sampleWorkbook.countP (fun p => !p.2.empty) :=
  c7_excel_headings sampleWorkbook (by decide) (by decide)

/-- C8: the uploader widget's extension whitelist omits xlsm, although
the ingestion pipeline carries an explicit .xlsm conversion branch and
the other seven types the specification lists are all present — so an
.xlsm file cannot be submitted and the pipeline's xlsm branch is
unreachable from the upload interface. -/
theorem c8_xlsm_gap :
    uploaderTypes.contains "xlsm" = false ∧
    excelSuffixes.contains ".xlsm" = true ∧
    specAcceptedTypes.filter (fun t => !uploaderTypes.contains t) = ["xlsm"] := by
  decide
